import Mathlib

/-!
Shallow embedding of `src/python_lkvm/lkvm.py` (clearlinux/python-lkvm),
a Python client that drives the `lkvm` hypervisor launcher through
subprocess calls, together with theorems settling the specification
claims about it.

Modelling conventions:
* Python strings are `String`; Python `None`-able string arguments are
  `Option String` (Python truthiness: `None` and `""` are falsy).
* Python integers appearing in argument lists are `Nat`; `_execute`
  stringifies every element (`command = [str(c) for c in command]`,
  line 85), so the argument vectors built here already carry the
  stringified form (`toString`), which is the form any claim observes.
* Fallible code returns `Except PyError _`; `PyError` covers the
  exceptions the embedded fragments can raise, including `NameError`,
  which matters because the source's `except NoSuchProcess:` clause
  (line 59) names an identifier that is not bound at module scope.
* The operating-system process table (`psutil`) is an explicit
  parameter `ProcTable`; captured stdout/stderr of a spawned process
  are explicit `String` parameters of the execution model.
-/

namespace LKVM

/-- Python truthiness of a `None`-able string: `None` and `""` are falsy. -/
def truthyOpt : Option String → Bool
  | none => false
  | some s => !(s == "")

/-- Does the string start with two dashes?  Used to separate flag tokens
from value tokens in constructed argument vectors. -/
def startsWithDD (s : String) : Bool :=
  match s.data with
  | c1 :: c2 :: _ => c1 == '-' && c2 == '-'
  | _ => false

/-- Python `s[2:]` on a string (used on flag tokens in `_get_instance_info`). -/
def pyDrop2 (s : String) : String :=
  String.mk (s.data.drop 2)

/-- Split a character list at every character satisfying `p`, keeping empty
groups, as Python `str.split(sep)` does for a one-character separator. -/
def splitOnPred (p : Char → Bool) : List Char → List (List Char)
  | [] => [[]]
  | c :: cs =>
    match splitOnPred p cs with
    | [] => [[]]
    | grp :: grps => if p c = true then [] :: grp :: grps else (c :: grp) :: grps

/-- Python `output.split('\n')` (line 291): split on each newline, keeping
empty pieces, so a trailing newline yields a trailing `""` element. -/
def pySplitNl (s : String) : List String :=
  (splitOnPred (fun c => c == '\n') s.data).map String.mk

/-- Python `line.split()` (line 294): split on whitespace runs, dropping
empty fields (leading/trailing whitespace produces no fields). -/
def pySplitWs (s : String) : List String :=
  ((splitOnPred Char.isWhitespace s.data).map String.mk).filter (fun t => !(t == ""))

def pyIntAux (acc : Nat) : List Char → Option Nat
  | [] => some acc
  | c :: cs => if c.isDigit = true then pyIntAux (acc * 10 + (c.toNat - 48)) cs else none

/-- Python `int(s)` (line 56) on the nonnegative decimal strings that occur
as process ids: `some` of the value on a nonempty all-digit string,
`none` (a `ValueError`) otherwise. -/
def pyInt (s : String) : Option Nat :=
  match s.data with
  | [] => none
  | l => pyIntAux 0 l

/-- The exceptions the embedded code can raise.  `nameError` models a Python
`NameError` for an identifier that fails to resolve; `lkvmException` is the
repository's own `LKVMException`. -/
inductive PyError where
  | lkvmException (msg : String)
  | nameError (missing : String)
  | indexError
  | valueError
deriving DecidableEq, Repr

/-- `LKVM_PATH = '/usr/bin/lkvm'` (line 28). -/
def LKVM_PATH : String := "/usr/bin/lkvm"

/-- The names bound at module scope of `lkvm.py` by its `import` statements
and top-level definitions (lines 21-41).  Python resolves the identifier in
an `except` clause against this scope (plus the builtins, which contain
none of the names below) at exception-handling time.  Note `psutil` is
imported as a module: `NoSuchProcess` itself is NOT bound. -/
def moduleNames : List String :=
  ["logging", "os", "psutil", "six", "subprocess", "sys",
   "LKVM_PATH", "LOG", "LKVMException", "LKVMInstance", "Client"]

/-- The operating-system process table: maps a pid to the command line of
the process, when one with that pid exists (`psutil.Process(pid).cmdline()`). -/
abbrev ProcTable := Nat → Option (List String)

/-- The environment `Client._execute` consults before spawning anything:
whether `os.geteuid` exists on this platform, the effective uid, and the
client's configured `root_helper` (default `None`, line 44). -/
structure ExecEnv where
  hasGeteuid : Bool
  euid : Nat
  rootHelper : Option String
deriving DecidableEq, Repr

/-- A request handed to `subprocess.Popen`: either a shell command line
(`shell=True`, background branch, line 91) or an argv list (foreground
branch, line 94). -/
inductive SpawnReq where
  | shell (cmdline : String)
  | argv (command : List String)
deriving DecidableEq, Repr

/-- Observable outcome of one `_execute` call: the processes it spawned and
its Python-level result (`.ok none` is Python's implicit `None` return). -/
structure ExecOutcome where
  spawned : List SpawnReq
  result : Except PyError (Option String)
deriving Repr

/-- The guard on line 76: `hasattr(os, 'geteuid') and os.geteuid() != 0 and
not self._root_helper` (note `not` uses truthiness, so an empty-string
helper also counts as unconfigured). -/
def noopCondition (env : ExecEnv) : Bool :=
  env.hasGeteuid && (env.euid != 0) && !(truthyOpt env.rootHelper)

/-- Lines 79-85: `command = [LKVM_PATH]`, prefixed by the root helper when
one is configured, then the subcommand, then the argument vector. -/
def buildCommand (env : ExecEnv) (cmd : String) (args : List String) : List String :=
  let command := [LKVM_PATH]
  let command := if truthyOpt env.rootHelper = true then env.rootHelper.getD "" :: command else command
  (command ++ [cmd]) ++ args

/-- `Client._execute` (lines 66-110).  `out`/`err` are the stdout/stderr the
foreground process would produce (`obj.communicate()`); the background
branch spawns a detached shell command and returns `None`.  The `OSError`
handler of lines 101-106 is outside this model: it only runs when
`communicate` itself fails, which the model (like claim C8) assumes does
not happen. -/
def execute (env : ExecEnv) (cmd : String) (args : List String) (background : Bool)
    (out err : String) : ExecOutcome :=
  if noopCondition env = true then
    ⟨[], .ok none⟩
  else
    let command := buildCommand env cmd args
    if background = true then
      ⟨[.shell (String.intercalate " " ("nohup" :: command) ++ " >/dev/null 2>&1")], .ok none⟩
    else
      ⟨[.argv command], if err = "" then .ok (some out) else .error (.lkvmException err)⟩

/-- Claim C7: with `geteuid` available, a nonzero effective uid and no
configured root helper, `_execute` spawns nothing and returns `None`,
raising no error — a silent no-op. -/
theorem execute_privilege_noop (env : ExecEnv) (cmd : String) (args : List String)
    (background : Bool) (out err : String)
    (h1 : env.hasGeteuid = true) (h2 : env.euid ≠ 0) (h3 : env.rootHelper = none) :
    execute env cmd args background out err = ⟨[], .ok none⟩ := by
  have hc : noopCondition env = true := by
    simp [noopCondition, h1, h3, truthyOpt, bne_iff_ne, h2]
  simp [execute, hc]

/-- Witness for C7 at a concrete non-root environment. -/
theorem execute_privilege_noop_witness :
    (⟨true, 1000, none⟩ : ExecEnv).hasGeteuid = true ∧
    (⟨true, 1000, none⟩ : ExecEnv).euid ≠ 0 ∧
    (⟨true, 1000, none⟩ : ExecEnv).rootHelper = none ∧
    execute ⟨true, 1000, none⟩ "stop" ["--all"] false "" "" = ⟨[], .ok none⟩ :=
  ⟨rfl, by decide, rfl,
    execute_privilege_noop ⟨true, 1000, none⟩ "stop" ["--all"] false "" "" rfl (by decide) rfl⟩

/-- Claim C8: a foreground `_execute` that reaches the spawn raises an
execution error iff the captured stderr is nonempty, the error carries the
stderr text verbatim, and with empty stderr the captured stdout is
returned. -/
theorem execute_foreground_stderr (env : ExecEnv) (cmd : String) (args : List String)
    (out err : String) (h : noopCondition env = false) :
    ((∃ e, (execute env cmd args false out err).result = .error e) ↔ err ≠ "") ∧
    (err ≠ "" → (execute env cmd args false out err).result = .error (.lkvmException err)) ∧
    (err = "" → (execute env cmd args false out err).result = .ok (some out)) := by
  by_cases he : err = "" <;> simp [execute, h, he]

/-- Witness for C8 at a root environment, once with stderr `"boom"` and
once with empty stderr. -/
theorem execute_foreground_stderr_witness :
    noopCondition ⟨true, 0, none⟩ = false ∧
    (execute ⟨true, 0, none⟩ "list" ["--run"] false "out" "boom").result =
      .error (.lkvmException "boom") ∧
    (execute ⟨true, 0, none⟩ "list" ["--run"] false "out" "").result = .ok (some "out") :=
  ⟨rfl,
    (execute_foreground_stderr ⟨true, 0, none⟩ "list" ["--run"] "out" "boom" rfl).2.1 (by decide),
    (execute_foreground_stderr ⟨true, 0, none⟩ "list" ["--run"] "out" "" rfl).2.2 rfl⟩

/-- The keyword options of `Client.run` (lines 112-117) and `Client.sandbox`
(lines 373-378), in Python signature order.  Required options first, then
the optionals with their Python defaults. -/
structure RunConfig where
  cpus : Nat
  mem : Nat
  shmem : String
  console : String
  kernel : String
  params : String
  network : String
  name : Option String
  disk : Option String
  balloon : Bool
  vnc : Bool
  gtk : Bool
  sdl : Bool
  rng : Bool
  plan9 : Bool
  dev : Option String
  tty : Option String
  sandbox : Option String
  hugetlbs : Option String
  initrd : Option String
  firmware : Option String
  no_dhcp : Bool
deriving DecidableEq, Repr

/-- One `if <v>: _params.extend([<flag>, <v>])` step. -/
def strFlag (flag : String) (v : Option String) : List String :=
  if truthyOpt v = true then [flag, v.getD ""] else []

/-- One `if <b>: _params.append(<flag>)` step. -/
def boolFlag (flag : String) (b : Bool) : List String :=
  if b = true then [flag] else []

/-- The `_params` vector built by `Client.run` (lines 167-218), already in
the stringified form `_execute` hands to the process (line 85).  The
kernel-parameter value is the string wrapped in literal quote characters
(`'"%s"' % params`, line 206). -/
def runParams (c : RunConfig) : List String :=
  ["--cpus", toString c.cpus, "--mem", toString c.mem, "--shmem", c.shmem]
    ++ strFlag "--name" c.name
    ++ (if c.console ∈ ["serial", "virtio", "hv"] then ["--console", c.console] else [])
    ++ boolFlag "--balloon" c.balloon
    ++ boolFlag "--vnc" c.vnc
    ++ boolFlag "--gtk" c.gtk
    ++ boolFlag "--sdl" c.sdl
    ++ boolFlag "--rng" c.rng
    ++ boolFlag "--9p" c.plan9
    ++ strFlag "--disk" c.disk
    ++ strFlag "--dev" c.dev
    ++ strFlag "--tty" c.tty
    ++ strFlag "--sandbox" c.sandbox
    ++ strFlag "--hugetlbs" c.hugetlbs
    ++ ["--kernel", c.kernel, "--params", "\"" ++ c.params ++ "\""]
    ++ strFlag "--initrd" c.initrd
    ++ strFlag "--firmware" c.firmware
    ++ ["--network", c.network]
    ++ boolFlag "--no-dhcp" c.no_dhcp

/-- The `_params` vector built by `Client.sandbox` (lines 428-479), a
line-for-line duplicate of the block in `Client.run`. -/
def sandboxParams (c : RunConfig) : List String :=
  ["--cpus", toString c.cpus, "--mem", toString c.mem, "--shmem", c.shmem]
    ++ strFlag "--name" c.name
    ++ (if c.console ∈ ["serial", "virtio", "hv"] then ["--console", c.console] else [])
    ++ boolFlag "--balloon" c.balloon
    ++ boolFlag "--vnc" c.vnc
    ++ boolFlag "--gtk" c.gtk
    ++ boolFlag "--sdl" c.sdl
    ++ boolFlag "--rng" c.rng
    ++ boolFlag "--9p" c.plan9
    ++ strFlag "--disk" c.disk
    ++ strFlag "--dev" c.dev
    ++ strFlag "--tty" c.tty
    ++ strFlag "--sandbox" c.sandbox
    ++ strFlag "--hugetlbs" c.hugetlbs
    ++ ["--kernel", c.kernel, "--params", "\"" ++ c.params ++ "\""]
    ++ strFlag "--initrd" c.initrd
    ++ strFlag "--firmware" c.firmware
    ++ ["--network", c.network]
    ++ boolFlag "--no-dhcp" c.no_dhcp

/-- One call to `self._execute(cmd, params, ...)`: the subcommand, the
argument vector, and whether `background=True` was passed. -/
structure Invocation where
  cmd : String
  args : List String
  background : Bool
deriving DecidableEq, Repr

/-- The `_execute` call a public operation issues, `none` when the
operation returns before reaching `_execute`. -/
abbrev MaybeInvocation := Option Invocation

/-- `Client.run` always reaches `self._execute('run', _params,
background=True)` (line 220): there is no selector guard. -/
def runInvocation (c : RunConfig) : MaybeInvocation :=
  some ⟨"run", runParams c, true⟩

/-- `Client.sandbox` always reaches `self._execute('sandbox', _params,
background=True)` (line 481). -/
def sandboxInvocation (c : RunConfig) : MaybeInvocation :=
  some ⟨"sandbox", sandboxParams c, true⟩

/-- `Client.pause` (lines 234-251): `--all`, else `--name <name>` when the
name is truthy, else return without calling `_execute`. -/
def pauseInvocation (all : Bool) (nm : Option String) : MaybeInvocation :=
  if all = true then some ⟨"pause", ["--all"], false⟩
  else if truthyOpt nm = true then some ⟨"pause", ["--name", nm.getD ""], false⟩
  else none

/-- `Client.resume` (lines 253-270), same selector logic as `pause`. -/
def resumeInvocation (all : Bool) (nm : Option String) : MaybeInvocation :=
  if all = true then some ⟨"resume", ["--all"], false⟩
  else if truthyOpt nm = true then some ⟨"resume", ["--name", nm.getD ""], false⟩
  else none

/-- `Client.stop` (lines 321-338), same selector logic as `pause`. -/
def stopInvocation (all : Bool) (nm : Option String) : MaybeInvocation :=
  if all = true then some ⟨"stop", ["--all"], false⟩
  else if truthyOpt nm = true then some ⟨"stop", ["--name", nm.getD ""], false⟩
  else none

/-- The `params` list built by `Client.balloon` (lines 313-318).  Note the
first element is the bare string `'name'`, exactly as in the source. -/
def balloonParams (nm : String) (amount : Nat) (balloon_options : String) : List String :=
  ["name", nm] ++
    (if balloon_options = "inflate" then ["--inflate", toString amount]
     else if balloon_options = "deflate" then ["--deflate", toString amount]
     else [])

/-- `Client.balloon` always reaches `self._execute('balloon', params)`
(line 319): `name` is a required positional argument and there is no
selector guard. -/
def balloonInvocation (nm : String) (amount : Nat) (balloon_options : String) : MaybeInvocation :=
  some ⟨"balloon", balloonParams nm amount balloon_options, false⟩

/-- `noDDOpt v` holds when an optional string value does not itself look
like a flag token (does not start with `--`). -/
def noDDOpt : Option String → Bool
  | none => true
  | some s => !(startsWithDD s)

/-- A run configuration whose string-valued inputs do not themselves start
with `--`, so that value tokens cannot be mistaken for flag tokens when
reading the constructed vector. -/
def goodConfig (c : RunConfig) : Bool :=
  !(startsWithDD (toString c.cpus)) &&
    (!(startsWithDD (toString c.mem)) &&
    (!(startsWithDD c.shmem) &&
    (!(startsWithDD c.console) &&
    (!(startsWithDD c.kernel) &&
    (!(startsWithDD c.network) &&
    (noDDOpt c.name &&
    (noDDOpt c.disk &&
    (noDDOpt c.dev &&
    (noDDOpt c.tty &&
    (noDDOpt c.sandbox &&
    (noDDOpt c.hugetlbs &&
    (noDDOpt c.initrd && noDDOpt c.firmware))))))))))))

theorem ne_of_dd {s t : String} (hs : startsWithDD s = true)
    (ht : startsWithDD t = false) : s ≠ t := by
  intro h
  rw [h] at hs
  simp [hs] at ht

theorem startsWithDD_quoted (p : String) : startsWithDD ("\"" ++ p ++ "\"") = false := by
  cases p with
  | mk l => cases l <;> rfl

theorem mem_strFlag_iff {f flag : String} {v : Option String}
    (hf : startsWithDD f = true) (hv : noDDOpt v = true) :
    f ∈ strFlag flag v ↔ (truthyOpt v = true ∧ f = flag) := by
  cases v with
  | none => simp [strFlag, truthyOpt]
  | some s =>
    by_cases ht : truthyOpt (some s) = true
    · have hne : f ≠ s := ne_of_dd hf (by simpa [noDDOpt] using hv)
      simp [strFlag, ht, hne]
    · simp [strFlag, ht]

theorem mem_boolFlag_iff {f flag : String} {b : Bool} :
    f ∈ boolFlag flag b ↔ (b = true ∧ f = flag) := by
  cases b <;> simp [boolFlag]

theorem mem_consoleSeg_iff {f cns : String}
    (hf : startsWithDD f = true) (hc : startsWithDD cns = false) :
    f ∈ (if cns ∈ ["serial", "virtio", "hv"] then ["--console", cns] else []) ↔
      (cns ∈ (["serial", "virtio", "hv"] : List String) ∧ f = "--console") := by
  by_cases h : cns ∈ (["serial", "virtio", "hv"] : List String)
  · simp [h, ne_of_dd hf hc]
  · simp [h]

/-- Characterisation of the flag tokens of the run vector: a token starting
with `--` is in the vector exactly when it is one of the mandatory flags or
an optional flag whose gate is on. -/
theorem mem_runParams (c : RunConfig) (f : String)
    (hg : goodConfig c = true) (hf : startsWithDD f = true) :
    f ∈ runParams c ↔
      (f = "--cpus" ∨ f = "--mem" ∨ f = "--shmem" ∨
       (truthyOpt c.name = true ∧ f = "--name") ∨
       (c.console ∈ (["serial", "virtio", "hv"] : List String) ∧ f = "--console") ∨
       (c.balloon = true ∧ f = "--balloon") ∨
       (c.vnc = true ∧ f = "--vnc") ∨
       (c.gtk = true ∧ f = "--gtk") ∨
       (c.sdl = true ∧ f = "--sdl") ∨
       (c.rng = true ∧ f = "--rng") ∨
       (c.plan9 = true ∧ f = "--9p") ∨
       (truthyOpt c.disk = true ∧ f = "--disk") ∨
       (truthyOpt c.dev = true ∧ f = "--dev") ∨
       (truthyOpt c.tty = true ∧ f = "--tty") ∨
       (truthyOpt c.sandbox = true ∧ f = "--sandbox") ∨
       (truthyOpt c.hugetlbs = true ∧ f = "--hugetlbs") ∨
       f = "--kernel" ∨ f = "--params" ∨
       (truthyOpt c.initrd = true ∧ f = "--initrd") ∨
       (truthyOpt c.firmware = true ∧ f = "--firmware") ∨
       f = "--network" ∨
       (c.no_dhcp = true ∧ f = "--no-dhcp")) := by
  rw [goodConfig, Bool.and_eq_true] at hg
  obtain ⟨g1, hg⟩ := hg
  rw [Bool.and_eq_true] at hg; obtain ⟨g2, hg⟩ := hg
  rw [Bool.and_eq_true] at hg; obtain ⟨g3, hg⟩ := hg
  rw [Bool.and_eq_true] at hg; obtain ⟨g4, hg⟩ := hg
  rw [Bool.and_eq_true] at hg; obtain ⟨g5, hg⟩ := hg
  rw [Bool.and_eq_true] at hg; obtain ⟨g6, hg⟩ := hg
  rw [Bool.and_eq_true] at hg; obtain ⟨g7, hg⟩ := hg
  rw [Bool.and_eq_true] at hg; obtain ⟨g8, hg⟩ := hg
  rw [Bool.and_eq_true] at hg; obtain ⟨g9, hg⟩ := hg
  rw [Bool.and_eq_true] at hg; obtain ⟨g10, hg⟩ := hg
  rw [Bool.and_eq_true] at hg; obtain ⟨g11, hg⟩ := hg
  rw [Bool.and_eq_true] at hg; obtain ⟨g12, hg⟩ := hg
  rw [Bool.and_eq_true] at hg; obtain ⟨g13, g14⟩ := hg
  have n1 : f ≠ toString c.cpus := ne_of_dd hf (by simpa using g1)
  have n2 : f ≠ toString c.mem := ne_of_dd hf (by simpa using g2)
  have n3 : f ≠ c.shmem := ne_of_dd hf (by simpa using g3)
  have n4 : f ≠ c.console := ne_of_dd hf (by simpa using g4)
  have n5 : f ≠ c.kernel := ne_of_dd hf (by simpa using g5)
  have n6 : f ≠ c.network := ne_of_dd hf (by simpa using g6)
  have nq : f ≠ "\"" ++ c.params ++ "\"" := ne_of_dd hf (startsWithDD_quoted c.params)
  simp only [runParams, List.mem_append, mem_strFlag_iff hf g7, mem_strFlag_iff hf g8,
    mem_strFlag_iff hf g9, mem_strFlag_iff hf g10, mem_strFlag_iff hf g11,
    mem_strFlag_iff hf g12, mem_strFlag_iff hf g13, mem_strFlag_iff hf g14,
    mem_consoleSeg_iff hf (by simpa using g4), mem_boolFlag_iff,
    List.mem_cons, List.not_mem_nil]
  simp [n1, n2, n3, n4, n5, n6, nq, or_assoc]

/-- A configuration with a truthy console value outside the enumerated set. -/
def consoleBad : RunConfig :=
  ⟨1, 128, "shm", "foo", "vmlinux", "root=/dev/vda", "tap0",
   none, none, false, false, false, false, false, false,
   none, none, none, none, none, none, false⟩

/-- Counterexample for claim C4 as stated: the console input `"foo"` is
truthy and present, yet the console flag does not appear in the vector, so
"each optional flag appears iff its input is truthy/present" fails for the
console option. -/
theorem console_truthy_but_omitted :
    consoleBad.console = "foo" ∧
    ¬("--console" ∈ runParams consoleBad ↔ consoleBad.console ≠ "") := by
  refine ⟨rfl, ?_⟩
  decide

/-- Claim C4 (amended): under a configuration whose string inputs do not
themselves start with `--`, the vector begins with the cpu, memory and
shared-memory flags in that fixed order, and each optional flag appears in
the vector iff its gate is on — truthiness of the input for every option
except console, whose flag appears iff the value is in the closed set
serial/virtio/hv. -/
theorem run_vector_flag_gating (c : RunConfig) (hg : goodConfig c = true) :
    (runParams c).take 6 =
      ["--cpus", toString c.cpus, "--mem", toString c.mem, "--shmem", c.shmem] ∧
    ("--name" ∈ runParams c ↔ truthyOpt c.name = true) ∧
    ("--console" ∈ runParams c ↔ c.console ∈ (["serial", "virtio", "hv"] : List String)) ∧
    ("--balloon" ∈ runParams c ↔ c.balloon = true) ∧
    ("--vnc" ∈ runParams c ↔ c.vnc = true) ∧
    ("--gtk" ∈ runParams c ↔ c.gtk = true) ∧
    ("--sdl" ∈ runParams c ↔ c.sdl = true) ∧
    ("--rng" ∈ runParams c ↔ c.rng = true) ∧
    ("--9p" ∈ runParams c ↔ c.plan9 = true) ∧
    ("--disk" ∈ runParams c ↔ truthyOpt c.disk = true) ∧
    ("--dev" ∈ runParams c ↔ truthyOpt c.dev = true) ∧
    ("--tty" ∈ runParams c ↔ truthyOpt c.tty = true) ∧
    ("--sandbox" ∈ runParams c ↔ truthyOpt c.sandbox = true) ∧
    ("--hugetlbs" ∈ runParams c ↔ truthyOpt c.hugetlbs = true) ∧
    ("--initrd" ∈ runParams c ↔ truthyOpt c.initrd = true) ∧
    ("--firmware" ∈ runParams c ↔ truthyOpt c.firmware = true) ∧
    ("--no-dhcp" ∈ runParams c ↔ c.no_dhcp = true) := by
  have htake : (runParams c).take 6 =
      ["--cpus", toString c.cpus, "--mem", toString c.mem, "--shmem", c.shmem] := by
    simp only [runParams, List.append_assoc]
    rw [List.take_left'
      (show (["--cpus", toString c.cpus, "--mem", toString c.mem,
        "--shmem", c.shmem] : List String).length = 6 from rfl)]
  refine ⟨htake, ?_, ?_, ?_, ?_, ?_, ?_, ?_, ?_, ?_, ?_, ?_, ?_, ?_, ?_, ?_, ?_⟩ <;>
    rw [mem_runParams c _ hg (by decide)] <;> simp

/-- A well-formed configuration exercising several optional gates. -/
def cfgFull : RunConfig :=
  ⟨2, 512, "shm", "serial", "vmlinux", "root=/dev/vda quiet", "tap0",
   some "vm1", some "disk.img", true, false, false, false, true, false,
   none, some "pty1", none, none, none, none, true⟩

/-- Witness for C4 (amended) at `cfgFull`. -/
theorem run_vector_flag_gating_witness :
    goodConfig cfgFull = true ∧
    (("--name" ∈ runParams cfgFull ↔ truthyOpt cfgFull.name = true) ∧
     ("--console" ∈ runParams cfgFull ↔
       cfgFull.console ∈ (["serial", "virtio", "hv"] : List String)) ∧
     ("--no-dhcp" ∈ runParams cfgFull ↔ cfgFull.no_dhcp = true)) :=
  ⟨by decide,
   ⟨(run_vector_flag_gating cfgFull (by decide)).2.1,
    (run_vector_flag_gating cfgFull (by decide)).2.2.1,
    (run_vector_flag_gating cfgFull (by decide)).2.2.2.2.2.2.2.2.2.2.2.2.2.2.2.2⟩⟩

/-- Claim C5: a console value outside serial/virtio/hv leads to the console
flag being omitted entirely; a value inside the set leads to `--console
<value>` appearing contiguously in the vector. -/
theorem console_enumerated_gating (c : RunConfig) (hg : goodConfig c = true) :
    (c.console ∉ (["serial", "virtio", "hv"] : List String) →
      "--console" ∉ runParams c) ∧
    (c.console ∈ (["serial", "virtio", "hv"] : List String) →
      ["--console", c.console] <:+: runParams c) := by
  constructor
  · intro hout hmem
    rw [mem_runParams c "--console" hg (by decide)] at hmem
    simp at hmem
    exact hout (by simpa using hmem)
  · intro hin
    refine ⟨["--cpus", toString c.cpus, "--mem", toString c.mem, "--shmem", c.shmem]
        ++ strFlag "--name" c.name,
      boolFlag "--balloon" c.balloon ++ boolFlag "--vnc" c.vnc ++ boolFlag "--gtk" c.gtk
        ++ boolFlag "--sdl" c.sdl ++ boolFlag "--rng" c.rng ++ boolFlag "--9p" c.plan9
        ++ strFlag "--disk" c.disk ++ strFlag "--dev" c.dev ++ strFlag "--tty" c.tty
        ++ strFlag "--sandbox" c.sandbox ++ strFlag "--hugetlbs" c.hugetlbs
        ++ ["--kernel", c.kernel, "--params", "\"" ++ c.params ++ "\""]
        ++ strFlag "--initrd" c.initrd ++ strFlag "--firmware" c.firmware
        ++ ["--network", c.network] ++ boolFlag "--no-dhcp" c.no_dhcp, ?_⟩
    simp [runParams, hin]

/-- Witness for C5: a `serial` console yields the contiguous pair, the
`foo` console of `consoleBad` yields no console flag at all. -/
theorem console_enumerated_gating_witness :
    goodConfig cfgFull = true ∧
    (["--console", "serial"] <:+: runParams cfgFull) ∧
    goodConfig consoleBad = true ∧
    "--console" ∉ runParams consoleBad :=
  ⟨by decide,
   (console_enumerated_gating cfgFull (by decide)).2 (by decide),
   by decide,
   (console_enumerated_gating consoleBad (by decide)).1 (by decide)⟩

/-- Claim C6: balloon mode `inflate` appends `--inflate <amount>`, mode
`deflate` appends `--deflate <amount>`, and any other mode string appends
neither flag, leaving only the `name <name>` pair. -/
theorem balloon_mode_flags (nm : String) (amount : Nat) (balloon_options : String) :
    (balloon_options = "inflate" →
      balloonParams nm amount balloon_options = ["name", nm, "--inflate", toString amount]) ∧
    (balloon_options = "deflate" →
      balloonParams nm amount balloon_options = ["name", nm, "--deflate", toString amount]) ∧
    (balloon_options ≠ "inflate" → balloon_options ≠ "deflate" →
      balloonParams nm amount balloon_options = ["name", nm]) := by
  refine ⟨?_, ?_, ?_⟩ <;> intros <;> simp [balloonParams, *]

/-- Witness for C6 at amount 512 with modes inflate, deflate and `grow`. -/
theorem balloon_mode_flags_witness :
    balloonParams "vm1" 512 "inflate" = ["name", "vm1", "--inflate", toString 512] ∧
    balloonParams "vm1" 512 "deflate" = ["name", "vm1", "--deflate", toString 512] ∧
    balloonParams "vm1" 512 "grow" = ["name", "vm1"] :=
  ⟨(balloon_mode_flags "vm1" 512 "inflate").1 rfl,
   (balloon_mode_flags "vm1" 512 "deflate").2.1 rfl,
   (balloon_mode_flags "vm1" 512 "grow").2.2 (by decide) (by decide)⟩

/-- Claim C9: on identical configurations, `sandbox` builds exactly the
vector `run` builds (quote-wrapped kernel-parameter element included), both
request background execution, and the two `_execute` calls differ only in
the subcommand string. -/
theorem run_sandbox_agreement (c : RunConfig) :
    sandboxParams c = runParams c ∧
    runInvocation c = some ⟨"run", runParams c, true⟩ ∧
    sandboxInvocation c = some ⟨"sandbox", runParams c, true⟩ ∧
    ("\"" ++ c.params ++ "\"") ∈ runParams c := by
  refine ⟨rfl, rfl, rfl, ?_⟩
  simp [runParams]

/-- Witness for C9 at a concrete configuration. -/
theorem run_sandbox_agreement_witness :
    sandboxParams cfgFull = runParams cfgFull ∧
    sandboxInvocation cfgFull = some ⟨"sandbox", runParams cfgFull, true⟩ ∧
    runInvocation cfgFull = some ⟨"run", runParams cfgFull, true⟩ :=
  ⟨(run_sandbox_agreement cfgFull).1,
   (run_sandbox_agreement cfgFull).2.2.1,
   (run_sandbox_agreement cfgFull).2.1⟩

/-- A configuration with every selector-like option absent (`name = None`). -/
def runNoName : RunConfig :=
  ⟨1, 128, "shm", "serial", "vmlinux", "root=/dev/vda", "tap0",
   none, none, false, false, false, false, false, false,
   none, none, none, none, none, none, false⟩

/-- Counterexample for claim C1 as stated: `run` called without a name (and
it has no `all` selector at all) still reaches `_execute`, and `balloon`
reaches `_execute` unconditionally — the execution primitive IS invoked. -/
theorem run_balloon_invoke_without_selector :
    runNoName.name = none ∧
    runInvocation runNoName ≠ none ∧
    balloonInvocation "vm1" 512 "grow" ≠ none := by
  refine ⟨rfl, ?_, ?_⟩ <;> simp [runInvocation, balloonInvocation]

/-- Claim C1 (amended): for `pause`, `resume` and `stop`, when neither
`all` nor a truthy `name` is supplied the operation returns without issuing
any `_execute` call and without raising; `run` and `balloon` are not silent
no-ops (see the counterexample). -/
theorem selector_missing_noop (nm : Option String) (h : truthyOpt nm = false) :
    pauseInvocation false nm = none ∧
    resumeInvocation false nm = none ∧
    stopInvocation false nm = none := by
  simp [pauseInvocation, resumeInvocation, stopInvocation, h]

/-- Witness for C1 (amended) at `name = None`. -/
theorem selector_missing_noop_witness :
    truthyOpt none = false ∧
    (pauseInvocation false none = none ∧
     resumeInvocation false none = none ∧
     stopInvocation false none = none) :=
  ⟨rfl, selector_missing_noop none rfl⟩

/-- One instance record of `list_instances`: the three first-class fields
set on lines 296-298 plus the property mapping recovered from the process
command line.  The mapping is kept as an ordered association list; the
source stores it in a dict, which only differs when a flag repeats. -/
structure LKVMInstance where
  pid : String
  name : String
  state : String
  props : List (String × String)
deriving DecidableEq, Repr

/-- The dict comprehension of line 61,
`{args[i][2:]: args[i+1] for i in range(0, len(args), 2)}`: pairs
consecutive tokens, stripping the two-character flag prefix; on an odd
token count the final `args[i+1]` indexes one past the end, an
`IndexError`. -/
def buildProps : List String → Except PyError (List (String × String))
  | [] => .ok []
  | [_] => .error .indexError
  | k :: v :: rest =>
    match buildProps rest with
    | .error e => .error e
    | .ok ps => .ok ((pyDrop2 k, v) :: ps)

/-- `Client._get_instance_info` (lines 54-64).  The pid arrives as the
string field of the list output and is converted with `int` (line 56).
When the pid is absent from the process table, `psutil.Process` raises and
the handler clause `except NoSuchProcess:` (line 59) must first resolve
the identifier `NoSuchProcess`; it is not bound at module scope (nor a
builtin), so a `NameError` escapes and the intended
`LKVMException('PID %s not found')` on line 60 is unreachable. -/
def get_instance_info (table : ProcTable) (pid : String) :
    Except PyError (List (String × String)) :=
  match pyInt pid with
  | none => .error .valueError
  | some p =>
    match table p with
    | none =>
      if moduleNames.contains "NoSuchProcess" = true then
        .error (.lkvmException ("PID " ++ toString p ++ " not found"))
      else
        .error (.nameError "NoSuchProcess")
    | some cmdline => buildProps (cmdline.drop 2)

/-- The loop body of lines 293-299: for each data line, whitespace-split it
(`ins = result.split()`), look up the details for `ins[0]`, then read
`ins[0]`, `ins[1]`, `ins[2]` as pid, name, state.  A missing field is an
`IndexError`; any error aborts the whole call, as in Python. -/
def processLines (table : ProcTable) : List String → Except PyError (List LKVMInstance)
  | [] => .ok []
  | line :: rest =>
    match pySplitWs line with
    | [] => .error .indexError
    | ins0 :: insRest =>
      match get_instance_info table ins0 with
      | .error e => .error e
      | .ok props =>
        match insRest with
        | ins1 :: ins2 :: _ =>
          match processLines table rest with
          | .error e => .error e
          | .ok tailInstances => .ok (⟨ins0, ins1, ins2, props⟩ :: tailInstances)
        | _ => .error .indexError

/-- `Client.list_instances` (lines 272-301) from the point where the list
output has been captured: falsy output (`None` from the privilege no-op,
or the empty string) yields `[]`; otherwise the output is split on
newlines, and only when more than two lines result are the lines
`results[2:-1]` processed. -/
def list_instances (table : ProcTable) (output : Option String) :
    Except PyError (List LKVMInstance) :=
  match output with
  | none => .ok []
  | some o =>
    if o = "" then .ok []
    else if 2 < (pySplitNl o).length then
      processLines table (((pySplitNl o).drop 2).dropLast)
    else .ok []

/-- A data line is well formed for `table` when it has at least three
whitespace fields, its first field is a decimal pid present in `table`,
and the command line found there has an even token count after dropping
the first two tokens. -/
def goodLine (table : ProcTable) (line : String) : Bool :=
  match pySplitWs line with
  | p :: _n :: _s :: _rest =>
    match pyInt p with
    | some k =>
      match table k with
      | some cmdline => decide ((cmdline.drop 2).length % 2 = 0)
      | none => false
    | none => false
  | _ => false

/-- The record a well-formed data line parses to: pid, name, state are the
first three whitespace fields, the properties come from the detail lookup
on the first field. -/
def recordOfLine (table : ProcTable) (line : String) : LKVMInstance :=
  match pySplitWs line with
  | p :: n :: s :: _ => ⟨p, n, s, (get_instance_info table p).toOption.getD []⟩
  | _ => ⟨"", "", "", []⟩

theorem goodLine_spec {table : ProcTable} {line : String}
    (h : goodLine table line = true) :
    ∃ p n s rest k cmdline,
      pySplitWs line = p :: n :: s :: rest ∧ pyInt p = some k ∧
      table k = some cmdline ∧ (cmdline.drop 2).length % 2 = 0 := by
  unfold goodLine at h
  split at h
  next p n s rest heq =>
    split at h
    next k heq2 =>
      split at h
      next cmdline heq3 =>
        exact ⟨p, n, s, rest, k, cmdline, heq, heq2, heq3, by simpa using h⟩
      next heq3 => simp at h
    next heq2 => simp at h
  next heq => simp at h

/-- `buildProps` succeeds exactly on even-length token lists. -/
theorem buildProps_even : ∀ l : List String,
    (∃ ps, buildProps l = .ok ps) ↔ l.length % 2 = 0
  | [] => by simp [buildProps]
  | [a] => by simp [buildProps]
  | a :: b :: rest => by
    have ih := buildProps_even rest
    cases h : buildProps rest with
    | error e =>
      simp [h] at ih
      simp [buildProps, h]
      omega
    | ok ps =>
      simp [h] at ih
      simp [buildProps, h]
      omega

theorem processLines_good (table : ProcTable) (lines : List String)
    (h : ∀ l ∈ lines, goodLine table l = true) :
    processLines table lines = .ok (lines.map (recordOfLine table)) := by
  induction lines with
  | nil => rfl
  | cons line rest ih =>
    have hl := h line (by simp)
    have hrest := ih (fun l hm => h l (by simp [hm]))
    obtain ⟨p, n, s, rest', k, cmdline, heq, hpy, htab, heven⟩ := goodLine_spec hl
    obtain ⟨ps, hps⟩ := (buildProps_even (cmdline.drop 2)).2 heven
    have hinfo : get_instance_info table p = .ok ps := by
      simp only [get_instance_info, hpy, htab, hps]
    simp [processLines, heq, hinfo, hrest, recordOfLine, Except.toOption]

/-- Claim C3: output consisting of a two-line header, N data lines and one
trailing blank line parses to exactly the N records read off the data
lines (pid, name, state from the first three whitespace fields), provided
each line's pid lookup succeeds; and falsy (empty or absent) output parses
to the empty list without error. -/
theorem list_instances_parse (table : ProcTable) (output h1 h2 : String)
    (dataLines : List String)
    (hsplit : pySplitNl output = h1 :: h2 :: (dataLines ++ [""]))
    (hgood : ∀ l ∈ dataLines, goodLine table l = true) :
    list_instances table (some output) = .ok (dataLines.map (recordOfLine table)) ∧
    (dataLines.map (recordOfLine table)).length = dataLines.length ∧
    list_instances table (some "") = .ok [] ∧
    list_instances table none = .ok [] := by
  refine ⟨?_, by simp, rfl, rfl⟩
  have hne : output ≠ "" := by
    intro h0
    rw [h0] at hsplit
    have hlen := congrArg List.length hsplit
    simp [pySplitNl, splitOnPred] at hlen
  have hcond : 2 < (h1 :: h2 :: (dataLines ++ [""])).length := by
    simp
  simp only [list_instances]
  rw [if_neg hne, hsplit, if_pos hcond]
  have hdrop : ((h1 :: h2 :: (dataLines ++ [""])).drop 2).dropLast = dataLines := by
    rw [List.drop_succ_cons, List.drop_succ_cons, List.drop_zero, List.dropLast_concat]
  rw [hdrop]
  exact processLines_good table dataLines hgood

/-- A one-entry process table whose pid 7 command line pairs up evenly. -/
def wTable : ProcTable := fun k =>
  if k = 7 then some ["/usr/bin/lkvm", "run", "--cpus", "2", "--mem", "512"] else none

/-- Witness for C3 on a concrete three-line listing plus the empty output. -/
theorem list_instances_parse_witness :
    pySplitNl "  PID NAME STATE\n------\n7 vm1 running\n" =
      "  PID NAME STATE" :: "------" :: (["7 vm1 running"] ++ [""]) ∧
    (∀ l ∈ ["7 vm1 running"], goodLine wTable l = true) ∧
    list_instances wTable (some "  PID NAME STATE\n------\n7 vm1 running\n") =
      .ok (["7 vm1 running"].map (recordOfLine wTable)) ∧
    list_instances wTable (some "") = .ok [] :=
  ⟨by decide, by decide,
   (list_instances_parse wTable "  PID NAME STATE\n------\n7 vm1 running\n"
     "  PID NAME STATE" "------" ["7 vm1 running"] (by decide) (by decide)).1,
   (list_instances_parse wTable "  PID NAME STATE\n------\n7 vm1 running\n"
     "  PID NAME STATE" "------" ["7 vm1 running"] (by decide) (by decide)).2.2.1⟩

/-- Claim C2 (code bug): with pid 42 absent from the process table, the
list detail lookup raises `NameError` — the identifier `NoSuchProcess` in
the `except` clause (line 59) is unbound at module scope — instead of the
`LKVMException('PID 42 not found')` the code itself intends on line 60. -/
theorem pid_lookup_raises_name_error :
    list_instances (fun _ => none) (some "  PID NAME STATE\n------\n42 vm1 running\n") =
      .error (.nameError "NoSuchProcess") ∧
    moduleNames.contains "NoSuchProcess" = false ∧
    (∀ msg, list_instances (fun _ => none)
      (some "  PID NAME STATE\n------\n42 vm1 running\n") ≠
        .error (.lkvmException msg)) := by
  have heval : list_instances (fun _ => none)
      (some "  PID NAME STATE\n------\n42 vm1 running\n") =
        .error (.nameError "NoSuchProcess") := rfl
  refine ⟨heval, rfl, ?_⟩
  intro msg hmsg
  rw [heval] at hmsg
  exact absurd hmsg (by simp)

/-- Claim C10: given a pid present in the table, the detail lookup returns
a property mapping iff the command line minus its first two tokens has an
even token count; an odd count indexes past the end and yields no record. -/
theorem instance_info_even_pairing (table : ProcTable) (pid : String) (k : Nat)
    (cmdline : List String) (h1 : pyInt pid = some k) (h2 : table k = some cmdline) :
    (∃ ps, get_instance_info table pid = .ok ps) ↔ (cmdline.drop 2).length % 2 = 0 := by
  simp only [get_instance_info, h1, h2]
  exact buildProps_even (cmdline.drop 2)

/-- A one-entry process table whose pid 5 command line has an odd remaining
token count. -/
def oddTable : ProcTable := fun k =>
  if k = 5 then some ["/usr/bin/lkvm", "run", "--cpus"] else none

/-- Witness for C10 at the odd-count table. -/
theorem instance_info_even_pairing_witness :
    pyInt "5" = some 5 ∧
    oddTable 5 = some ["/usr/bin/lkvm", "run", "--cpus"] ∧
    ((∃ ps, get_instance_info oddTable "5" = .ok ps) ↔
      ((["/usr/bin/lkvm", "run", "--cpus"].drop 2).length % 2 = 0)) :=
  ⟨by decide, by decide,
   instance_info_even_pairing oddTable "5" 5 ["/usr/bin/lkvm", "run", "--cpus"]
     (by decide) (by decide)⟩

end LKVM
